import Mathlib

/-!
Shallow embedding of `FrequentWordsController.js` (WordSeer).

The controller's behaviour is modelled as pure Lean functions:

* the `lollipop` render pass (d3 v3 semantics: `d3.max` skips NaN and
  returns `undefined` on an empty list; `d3.scale.linear` with a degenerate
  domain `[a, a]` or a NaN endpoint uses factor 0, so every input maps to
  the start of the range);
* JavaScript numbers are modelled as `Option ℚ`, with `none` playing the
  role of NaN (NaN-propagating arithmetic where it matters);
* the toggle handlers (`optionEvent` for `group-by-stem` /
  `order-by-score`) acting on an ExtJS-style store whose `filter` call
  accumulates filters (hence the explicit `clearFilter` in the source) and
  whose `sort` call installs a sorter;
* `showFrequentWordsOverlay` guarded by `getComponent('frequent-words-overlay')`;
* `getFrequentWordForSlice` guarded by `isSameSlice()`, logging `load`
  calls on the three part-of-speech stores.
-/

namespace WordSeer

/-- A JavaScript number after `+x` coercion: `none` models NaN
(e.g. `+undefined` or a malformed `data-*` attribute string). -/
abbrev JNum := Option ℚ

/-- Combine one candidate value with a running maximum, skipping NaN
(`none`) candidates the way `d3.max`'s `b > a` comparison does. -/
def jmaxCombine : JNum → JNum → JNum
  | none, m => m
  | some v, none => some v
  | some v, some m => some (max v m)

/-- `d3.max` (v3) over already-coerced values: values that are NaN
(`none`) are skipped, and the maximum of an empty (or all-NaN) list is
`undefined`, modelled as `none`. -/
def d3max : List JNum → JNum
  | [] => none
  | x :: xs => jmaxCombine x (d3max xs)

/-- A row of the frequent-words store.  `score_sentences` is kept as the
value `+d.score_sentences` coerces to (`none` = NaN). -/
structure Row where
  count : ℤ
  score_sentences : JNum
  is_lemmatized : ℤ
deriving DecidableEq

/-- The interpolation factor `d3_uninterpolateNumber(0, m)` uses:
`b = (b -= a) ? 1/b : 0`, i.e. 0 when the domain is degenerate (`m = 0`)
or `m` is NaN, otherwise `1/m`. -/
def domainFactor : JNum → ℚ
  | none => 0
  | some m => if m = 0 then 0 else 1 / m

/-- The linear scale built by `lollipop`:
`d3.scale.linear().domain([0, maxscore]).range([r, 100-r])` with `r = 4`,
where `maxscore = d3.max(svg.data(), d => +d.score_sentences)`.
`scale(x) = 4 + ((x - 0) * factor) * (96 - 4)`; NaN input propagates. -/
def lollipopScale (rows : List Row) : JNum → JNum :=
  fun x =>
    x.map fun xv =>
      4 + xv * domainFactor (d3max (rows.map fun d => d.score_sentences)) * 92

/-- An appended SVG `circle`: `cx` may be NaN (invalid geometry). -/
structure Circle where
  cx : JNum
  cy : ℚ
  r : ℚ
deriving DecidableEq

/-- An appended SVG `line`; the `stroke` attribute is never set in the
source (the `.attr('stroke', '#000')` line is commented out), so it is
recorded as `none` (inherit the default/theme stroke). -/
structure Line where
  x1 : JNum
  x2 : JNum
  y1 : ℚ
  y2 : ℚ
  strokeWidth : ℚ
  stroke : Option String
deriving DecidableEq

/-- The geometry emitted by one `lollipop` pass. -/
structure LollipopOutput where
  circles : List Circle
  lines : List Line
deriving DecidableEq

/-- A circle is drawable (valid) geometry iff its computed coordinate is
an actual number, not NaN. -/
def Circle.validGeom (c : Circle) : Bool := c.cx.isSome

/-- A line is drawable (valid) geometry iff both endpoints are actual
numbers, not NaN. -/
def Line.validGeom (l : Line) : Bool := l.x1.isSome && l.x2.isSome

/-- The `lollipop` render pass: per row, append a circle at
`(scale(+d.score_sentences), 8)` with radius 4, and a line from
`(scale(0), 8)` to `(scale(+d.score_sentences), 8)` with stroke-width 1.
`scale(0)` is the eagerly-evaluated constant argument of
`.attr('x1', scale(0))`, hence identical for every line. -/
def lollipop (rows : List Row) : LollipopOutput :=
  let scale := lollipopScale rows
  { circles := rows.map fun d => ⟨scale d.score_sentences, 8, 4⟩
    lines := rows.map fun d => ⟨scale (some 0), scale d.score_sentences, 8, 8, 1, none⟩ }

/-- The arguments `scale` is invoked with during one `lollipop` pass, in
JavaScript evaluation order: once per row for the circle `cx` attribute
function, then once with `0` for the eager `.attr('x1', scale(0))`
argument (evaluated even when the selection is empty), then once per row
for the line `x2` attribute function. -/
def lollipopScaleEvals (rows : List Row) : List JNum :=
  (rows.map fun d => d.score_sentences) ++ [some 0]
    ++ (rows.map fun d => d.score_sentences)

/-- A filter record passed to `store.filter({property, value})`. -/
structure Filter where
  property : String
  value : ℤ
deriving DecidableEq

/-- Sort direction string of `store.sort({property, direction})`. -/
inductive Direction
  | ASC
  | DESC
deriving DecidableEq

/-- A sorter record passed to `store.sort({property, direction})`. -/
structure Sorter where
  property : String
  direction : Direction
deriving DecidableEq

/-- The view's backing ExtJS store: its loaded rows, the currently active
filters, and the currently installed sorter. -/
structure Store where
  rows : List Row
  filters : List Filter
  sorter : Option Sorter
deriving DecidableEq

/-- `store.clearFilter()`: removes every active filter. -/
def clearFilter (s : Store) : Store := { s with filters := [] }

/-- `store.filter(f)`: ExtJS filters are cumulative — the new filter is
added to the already-active ones (which is why the source calls
`clearFilter` first). -/
def filterStore (s : Store) (f : Filter) : Store :=
  { s with filters := s.filters ++ [f] }

/-- `store.sort(srt)`: installs the given sorter. -/
def sortStore (s : Store) (srt : Sorter) : Store :=
  { s with sorter := some srt }

/-- Value of an ExtJS record field by name, for the fields the filters in
this controller touch; an unknown property reads as `undefined` (`none`),
which matches no filter value. -/
def rowPropInt (r : Row) (p : String) : Option ℤ :=
  if p = "is_lemmatized" then some r.is_lemmatized
  else if p = "count" then some r.count
  else none

/-- Whether a record passes one `{property, value}` filter. -/
def matchesFilter (r : Row) (f : Filter) : Bool :=
  rowPropInt r f.property == some f.value

/-- The rows the filtered store exposes: those passing all active
filters. -/
def visibleRows (s : Store) : List Row :=
  s.rows.filter fun r => s.filters.all (matchesFilter r)

/-- The `FrequentWordsList`/`PhrasesList` view: its two toggle flags
(both `false` when the view is created) and its backing store. -/
structure View where
  groupedByStem : Bool
  orderedByDiffProp : Bool
  store : Store
deriving DecidableEq

/-- `applyFilters(frequent_words_list)`: clears every filter, then
filters on `is_lemmatized` with value `1` when `groupedByStem`, else
`0`. -/
def applyFilters (v : View) : View :=
  let value : ℤ := if v.groupedByStem then 1 else 0
  let s := clearFilter v.store
  { v with store := filterStore s ⟨"is_lemmatized", value⟩ }

/-- `applySorter(frequent_words_list)`: sorts by `score_sentences` when
`orderedByDiffProp`, else by `count`, always with direction `'DESC'`. -/
def applySorter (v : View) : View :=
  let property := if v.orderedByDiffProp then "score_sentences" else "count"
  { v with store := sortStore v.store ⟨property, Direction.DESC⟩ }

/-- The `action` string of the clicked option. -/
inductive OptionAction
  | groupByStem
  | orderByScore
  | otherAction (s : String)
deriving DecidableEq

/-- The `optionEvent` handler: flips the matching flag, then re-applies
the filter (resp. sorter); any other action is ignored. -/
def optionEvent (v : View) (action : OptionAction) : View :=
  match action with
  | .groupByStem => applyFilters { v with groupedByStem := !v.groupedByStem }
  | .orderByScore => applySorter { v with orderedByDiffProp := !v.orderedByDiffProp }
  | .otherAction _ => v

/-- A rendered row element of the list markup: its row datum (exposed to
d3 through `this.dataset`) and the SVG geometry appended inside it. -/
structure RowElem where
  datum : Row
  circles : List Circle
  lines : List Line
deriving DecidableEq

/-- The append phase of `lollipop` acting on the current row elements:
the scale is rebuilt from the data carried by exactly those elements, and
one circle and one line are appended to each. -/
def appendLollipop (elems : List RowElem) : List RowElem :=
  let rows := elems.map fun e => e.datum
  let scale := lollipopScale rows
  elems.map fun e =>
    { e with
      circles := e.circles ++ [⟨scale e.datum.score_sentences, 8, 4⟩]
      lines := e.lines ++ [⟨scale (some 0), scale e.datum.score_sentences, 8, 8, 1, none⟩] }

/-- Modelled from the spec: the `FrequentWordsList` view class (not under
`src/`) regenerates its row markup from the currently visible store rows
before each `datachanged`/`afterrender` trigger reaches `lollipop`, so a
fresh pass starts from row elements carrying no previous geometry. -/
def refreshRowMarkup (rows : List Row) : List RowElem :=
  rows.map fun r => ⟨r, [], []⟩

/-- One full render/data-change trigger: the previous DOM is replaced by
fresh row markup for the current rows, then `lollipop` appends the
geometry. -/
def renderPass (_prevDom : List RowElem) (rows : List Row) : List RowElem :=
  appendLollipop (refreshRowMarkup rows)

/-- A `formValues` search query: its `serialize()` result and its
`search` array (each entry an object, modelled as key/value pairs). -/
structure FormValues where
  serialized : List (String × String)
  search : List (List (String × String))
deriving DecidableEq

/-- `Ext.apply(dst, src)`: copies `src`'s properties onto `dst`,
overriding keys already present. -/
def extApply (dst src : List (String × String)) : List (String × String) :=
  dst.filter (fun kv => !(src.any fun kv2 => kv2.1 == kv.1)) ++ src

/-- One of the part-of-speech stores of the layout-panel model: its
loaded contents and the log of `load({params})` calls issued on it. -/
structure LoadStore where
  contents : List Row
  loads : List (List (String × String))
deriving DecidableEq

/-- `store.load({params})`: fire-and-forget request; recorded in the load
log (the asynchronous population of `contents` belongs to the
framework). -/
def loadStore (s : LoadStore) (params : List (String × String)) : LoadStore :=
  { s with loads := s.loads ++ [params] }

/-- The layout-panel model: whether `isSameSlice()` currently reports
`true`, and the three frequent-word stores. -/
structure LayoutPanelModel where
  sameSlice : Bool
  NStore : LoadStore
  VStore : LoadStore
  JStore : LoadStore
deriving DecidableEq

/-- A layout panel: the `itemId`s of its child components, its cached
`formValues`, and its layout-panel model. -/
structure Panel where
  componentIds : List String
  formValues : Option FormValues
  model : LayoutPanelModel
deriving DecidableEq

/-- Environment globals `getInstance()` / `getUsername()`. -/
structure Env where
  instanceId : String
  user : String
deriving DecidableEq

/-- `getFrequentWordForSlice(panel, formValues)`: caches `formValues` on
the panel when absent; when `isSameSlice()` is false, builds the request
params (instance/user, the serialized query, and the first search record
when present) and issues `load` on `NStore`, `VStore` and `JStore`. -/
def getFrequentWordForSlice (env : Env) (panel : Panel) (formValues : FormValues) :
    Panel :=
  let panel :=
    if panel.formValues.isNone then { panel with formValues := some formValues }
    else panel
  if !panel.model.sameSlice then
    let params := extApply [("instance", env.instanceId), ("user", env.user)]
      formValues.serialized
    let params :=
      match formValues.search with
      | [] => params
      | s0 :: _ => extApply params s0
    let m := panel.model
    { panel with
      model :=
        { m with
          NStore := loadStore m.NStore params
          VStore := loadStore m.VStore params
          JStore := loadStore m.JStore params } }
  else panel

/-- `showFrequentWordsOverlay(panel, button)`: guarded by
`panel.getComponent('frequent-words-overlay')` — only when no such child
exists is a new overlay created and added to the panel. -/
def showFrequentWordsOverlay (panel : Panel) : Panel :=
  if !(panel.componentIds.contains "frequent-words-overlay") then
    { panel with componentIds := panel.componentIds ++ ["frequent-words-overlay"] }
  else panel

end WordSeer

namespace WordSeer

/-- When `d3.max` of the coerced scores is the number `maxS`, the scale
built by `lollipop` agrees with the closed form `x ↦ 4 + (x / maxS) * 92`
(with `ℚ`-division, under which `x / 0 = 0`, matching d3's factor-0 rule
for a degenerate domain). -/
theorem lollipopScale_eq_of_max (rows : List Row) (maxS : ℚ)
    (hmax : d3max (rows.map fun d => d.score_sentences) = some maxS) :
    ∀ x : JNum, lollipopScale rows x = x.map fun q => 4 + q / maxS * 92 := by
  intro x
  unfold lollipopScale domainFactor
  rw [hmax]
  rcases x with _ | q
  · rfl
  · simp only [Option.map_some']
    by_cases h : maxS = 0
    · subst h; norm_num
    · rw [if_neg h]
      congr 1
      field_simp

/-- C1: on a rendered row set whose coerced scores have maximum `maxS`,
the pass draws per row a dot at `(scale(+score_sentences), 8)` of radius
4 and a line from `(scale(0), 8) = (4, 8)` to the dot with stroke-width 1
and no stroke override, with `scale(x) = 4 + (x / maxS) * 92`. -/
theorem claim_C1 (rows : List Row) (maxS : ℚ)
    (hmax : d3max (rows.map fun d => d.score_sentences) = some maxS) :
    lollipop rows =
      { circles := rows.map fun d =>
          ⟨d.score_sentences.map fun x => 4 + x / maxS * 92, 8, 4⟩
        lines := rows.map fun d =>
          ⟨some 4, d.score_sentences.map fun x => 4 + x / maxS * 92, 8, 8, 1, none⟩ } := by
  have hs := lollipopScale_eq_of_max rows maxS hmax
  unfold lollipop
  simp only [hs, Option.map_some']
  norm_num

/-- C1 witness: the spec's own example, scores {2, 8, 10}: maxScore = 10
and the dots land at 22.4 = 112/5, 77.6 = 388/5 and 96. -/
theorem claim_C1_witness :
    d3max (([⟨0, some 2, 0⟩, ⟨0, some 8, 0⟩, ⟨0, some 10, 0⟩] : List Row).map
        fun d => d.score_sentences) = some 10 ∧
    lollipop [⟨0, some 2, 0⟩, ⟨0, some 8, 0⟩, ⟨0, some 10, 0⟩] =
      { circles := [⟨some (112/5), 8, 4⟩, ⟨some (388/5), 8, 4⟩, ⟨some 96, 8, 4⟩]
        lines := [⟨some 4, some (112/5), 8, 8, 1, none⟩,
          ⟨some 4, some (388/5), 8, 8, 1, none⟩,
          ⟨some 4, some 96, 8, 8, 1, none⟩] } := by
  have hmax : d3max (([⟨0, some 2, 0⟩, ⟨0, some 8, 0⟩, ⟨0, some 10, 0⟩] : List Row).map
      fun d => d.score_sentences) = some 10 := by
    norm_num [d3max, jmaxCombine, max_def]
  refine ⟨hmax, ?_⟩
  rw [claim_C1 _ 10 hmax]
  norm_num

/-- C2 counterexample: a one-row set with score 0 has maxScore = 0, and
there the scale (built over the degenerate domain `[0, 0]`) sends
`maxScore` to 4, not 96 — refuting the claim's "including the case
maxScore == 0". -/
theorem claim_C2_counterexample :
    d3max (([⟨0, some 0, 0⟩] : List Row).map fun d => d.score_sentences) = some 0 ∧
    lollipopScale [⟨0, some 0, 0⟩] (some 0) = some 4 ∧
    lollipopScale [⟨0, some 0, 0⟩] (some 0) ≠ some 96 := by
  refine ⟨by simp [d3max, jmaxCombine], ?_, ?_⟩ <;>
    norm_num [lollipopScale, domainFactor, d3max, jmaxCombine]

/-- C2 amended: `scale(0) = 4` always; `scale(maxScore) = 96` whenever
`maxScore ≠ 0`; when `maxScore = 0` the degenerate domain makes the scale
constantly 4 (so `scale(maxScore) = 4`, not 96). -/
theorem claim_C2_amended (rows : List Row) (maxS : ℚ)
    (hmax : d3max (rows.map fun d => d.score_sentences) = some maxS) :
    lollipopScale rows (some 0) = some 4 ∧
    (maxS ≠ 0 → lollipopScale rows (some maxS) = some 96) ∧
    (maxS = 0 → ∀ x : ℚ, lollipopScale rows (some x) = some 4) := by
  have hs := lollipopScale_eq_of_max rows maxS hmax
  refine ⟨?_, fun h => ?_, fun h x => ?_⟩
  · rw [hs]; norm_num
  · rw [hs]
    simp only [Option.map_some']
    rw [div_self h]
    norm_num
  · subst h
    rw [hs]
    norm_num

/-- C2 amended witness: a one-row set with score 5: `scale(0) = 4` and
`scale(5) = 96`. -/
theorem claim_C2_amended_witness :
    lollipopScale [⟨0, some 5, 0⟩] (some 0) = some 4 ∧
    lollipopScale [⟨0, some 5, 0⟩] (some 5) = some 96 := by
  have hmax : d3max (([⟨0, some 5, 0⟩] : List Row).map fun d => d.score_sentences)
      = some 5 := by
    simp [d3max, jmaxCombine]
  have h := claim_C2_amended [⟨0, some 5, 0⟩] 5 hmax
  exact ⟨h.1, h.2.1 (by norm_num)⟩

/-- C3 counterexample: on the empty row set the scale IS evaluated — the
eager `.attr('x1', scale(0))` argument calls it once with 0 — refuting
"the scale mapping is not evaluated at all". -/
theorem claim_C3_counterexample :
    lollipopScaleEvals ([] : List Row) = [some 0] ∧
    lollipopScaleEvals ([] : List Row) ≠ [] := by
  constructor <;> simp [lollipopScaleEvals]

/-- C3 amended: on the empty row set the pass emits zero dots and zero
lines and no error is possible, but there is no explicit guard: the
scale is built over the domain `[0, undefined]` and evaluated once at 0
(for the line `x1` argument), harmlessly yielding the range minimum 4. -/
theorem claim_C3_amended :
    lollipop ([] : List Row) = ⟨[], []⟩ ∧
    lollipopScaleEvals ([] : List Row) = [some 0] ∧
    lollipopScale [] (some 0) = some 4 := by
  refine ⟨?_, ?_, ?_⟩ <;>
    norm_num [lollipop, lollipopScale, lollipopScaleEvals, d3max, domainFactor]

end WordSeer

namespace WordSeer

/-- C4: a render pass's displayed geometry is a function of the currently
visible row set alone — whatever was in the DOM before (any previous
geometry), the pass yields exactly one dot and one line per current row,
computed with the scale rebuilt from the current rows. -/
theorem claim_C4 (prevDom prevDom2 : List RowElem) (rows : List Row) :
    renderPass prevDom rows = renderPass prevDom2 rows ∧
    renderPass prevDom rows =
      rows.map fun r =>
        ⟨r, [⟨lollipopScale rows r.score_sentences, 8, 4⟩],
          [⟨lollipopScale rows (some 0), lollipopScale rows r.score_sentences,
            8, 8, 1, none⟩]⟩ := by
  constructor
  · rfl
  · have hdatum : ((refreshRowMarkup rows).map fun e => e.datum) = rows := by
      simp [refreshRowMarkup, List.map_map, Function.comp_def]
    simp only [renderPass, appendLollipop, hdatum, refreshRowMarkup, List.map_map,
      Function.comp_def]
    simp

/-- C5: the group-by-stem toggle flips `groupedByStem` and leaves the
store with exactly one filter, `is_lemmatized == 1` when the new flag is
true and `== 0` when false, whatever filters were active before; rows and
sorter are untouched. -/
theorem claim_C5 (v : View) :
    ((optionEvent v .groupByStem).groupedByStem = !v.groupedByStem) ∧
    (optionEvent v .groupByStem).store.filters =
      [⟨"is_lemmatized", if (optionEvent v .groupByStem).groupedByStem then 1 else 0⟩] ∧
    (optionEvent v .groupByStem).store.rows = v.store.rows ∧
    (optionEvent v .groupByStem).store.sorter = v.store.sorter := by
  simp [optionEvent, applyFilters, clearFilter, filterStore]

/-- C6: the order-by-score toggle flips `orderedByDiffProp` and installs
the sorter keyed by `score_sentences` when the new flag is true and by
`count` when false, with direction `'DESC'` in both cases (never
ascending); rows and filters are untouched. -/
theorem claim_C6 (v : View) :
    ((optionEvent v .orderByScore).orderedByDiffProp = !v.orderedByDiffProp) ∧
    (optionEvent v .orderByScore).store.sorter =
      some ⟨if (optionEvent v .orderByScore).orderedByDiffProp
              then "score_sentences" else "count",
            Direction.DESC⟩ ∧
    (optionEvent v .orderByScore).store.rows = v.store.rows ∧
    (optionEvent v .orderByScore).store.filters = v.store.filters := by
  simp [optionEvent, applySorter, sortStore]

/-- C7 counterexample: starting from an unfiltered store holding one
`is_lemmatized = 1` row with `groupedByStem = false`, toggling twice does
restore the flag but leaves the filter `is_lemmatized == 0` active, so
the observable filtered state (all rows before, none after) is NOT
restored. -/
theorem claim_C7_counterexample :
    ((optionEvent (optionEvent ⟨false, false, ⟨[⟨3, none, 1⟩], [], none⟩⟩ .groupByStem)
        .groupByStem).groupedByStem
      = (false : Bool)) ∧
    visibleRows (optionEvent (optionEvent ⟨false, false, ⟨[⟨3, none, 1⟩], [], none⟩⟩
        .groupByStem) .groupByStem).store
      ≠ visibleRows (⟨[⟨3, none, 1⟩], [], none⟩ : Store) := by
  decide

/-- C7 amended: toggling group-by-stem twice always restores
`groupedByStem`; the collection's filtered state is restored provided the
collection already carried exactly the `is_lemmatized` filter matching
the current flag (the state every previous toggle leaves behind) — from
an arbitrary prior state (e.g. unfiltered) the double toggle instead
leaves that one filter active. -/
theorem claim_C7_amended (v : View)
    (hpre : v.store.filters = [⟨"is_lemmatized", if v.groupedByStem then 1 else 0⟩]) :
    ((optionEvent (optionEvent v .groupByStem) .groupByStem).groupedByStem
      = v.groupedByStem) ∧
    (optionEvent (optionEvent v .groupByStem) .groupByStem).store = v.store ∧
    visibleRows (optionEvent (optionEvent v .groupByStem) .groupByStem).store
      = visibleRows v.store := by
  obtain ⟨g, o, rows, filters, sorter⟩ := v
  simp only [Store.mk.injEq] at hpre
  simp [optionEvent, applyFilters, clearFilter, filterStore, hpre]

/-- C7 amended witness: a view with `groupedByStem = true` whose store
already carries the matching `is_lemmatized == 1` filter returns to
exactly the same store after a double toggle. -/
theorem claim_C7_amended_witness :
    ((optionEvent (optionEvent
        ⟨true, false, ⟨[⟨2, none, 1⟩], [⟨"is_lemmatized", 1⟩], none⟩⟩ .groupByStem)
        .groupByStem).groupedByStem = true) ∧
    (optionEvent (optionEvent
        ⟨true, false, ⟨[⟨2, none, 1⟩], [⟨"is_lemmatized", 1⟩], none⟩⟩ .groupByStem)
        .groupByStem).store = ⟨[⟨2, none, 1⟩], [⟨"is_lemmatized", 1⟩], none⟩ := by
  have h := claim_C7_amended
    ⟨true, false, ⟨[⟨2, none, 1⟩], [⟨"is_lemmatized", 1⟩], none⟩⟩ (by decide)
  exact ⟨h.1, h.2.1⟩

end WordSeer

namespace WordSeer

/-- The scale always sends 0 to 4 (the start of the range), whatever the
row set: the factor multiplies a zero offset. -/
theorem lollipopScale_zero (rows : List Row) :
    lollipopScale rows (some 0) = some 4 := by
  simp [lollipopScale]

/-- C8: when some row's `score_sentences` coerces to NaN, that row's
circle and line carry a NaN coordinate — no valid geometry is drawn for
it — while the pass still completes: every row gets its circle and line,
and every row with a numeric score gets its full, valid geometry (NaN
rows are also skipped by `d3.max`, so they do not disturb the scale). -/
theorem claim_C8 (rows : List Row) (i : ℕ) (r : Row)
    (hr : rows[i]? = some r) (hnan : r.score_sentences = none) :
    (lollipop rows).circles.length = rows.length ∧
    (lollipop rows).lines.length = rows.length ∧
    (∃ c : Circle, (lollipop rows).circles[i]? = some c ∧ c.validGeom = false) ∧
    (∃ l : Line, (lollipop rows).lines[i]? = some l ∧ l.validGeom = false) ∧
    (∀ j : ℕ, ∀ r2 : Row, ∀ q : ℚ, rows[j]? = some r2 → r2.score_sentences = some q →
      (lollipop rows).circles[j]? = some ⟨lollipopScale rows (some q), 8, 4⟩ ∧
      (lollipop rows).lines[j]? =
        some ⟨some 4, lollipopScale rows (some q), 8, 8, 1, none⟩ ∧
      (lollipopScale rows (some q)).isSome = true) := by
  have hzero := lollipopScale_zero rows
  refine ⟨by simp [lollipop], by simp [lollipop], ?_, ?_, ?_⟩
  · refine ⟨⟨lollipopScale rows r.score_sentences, 8, 4⟩, ?_, ?_⟩
    · simp [lollipop, List.getElem?_map, hr]
    · simp [Circle.validGeom, hnan, lollipopScale]
  · refine ⟨⟨lollipopScale rows (some 0), lollipopScale rows r.score_sentences,
      8, 8, 1, none⟩, ?_, ?_⟩
    · simp [lollipop, List.getElem?_map, hr]
    · simp [Line.validGeom, hnan, lollipopScale]
  · intro j r2 q hj hq
    refine ⟨?_, ?_, ?_⟩
    · simp [lollipop, List.getElem?_map, hj, hq]
    · simp [lollipop, List.getElem?_map, hj, hq, hzero]
    · simp [lollipopScale]

/-- C8 witness: scores {2, NaN, 8}: the NaN row's circle and line are
invalid geometry, while the other rows render fully (max over the numeric
scores is 8, so the dots land at 27 and 96). -/
theorem claim_C8_witness :
    (lollipop [⟨0, some 2, 0⟩, ⟨0, none, 0⟩, ⟨0, some 8, 0⟩]).circles.length = 3 ∧
    (∃ c : Circle,
      (lollipop [⟨0, some 2, 0⟩, ⟨0, none, 0⟩, ⟨0, some 8, 0⟩]).circles[1]? = some c ∧
      c.validGeom = false) ∧
    (∃ l : Line,
      (lollipop [⟨0, some 2, 0⟩, ⟨0, none, 0⟩, ⟨0, some 8, 0⟩]).lines[1]? = some l ∧
      l.validGeom = false) ∧
    (lollipop [⟨0, some 2, 0⟩, ⟨0, none, 0⟩, ⟨0, some 8, 0⟩]).circles[0]? =
      some ⟨some 27, 8, 4⟩ ∧
    (lollipop [⟨0, some 2, 0⟩, ⟨0, none, 0⟩, ⟨0, some 8, 0⟩]).lines[2]? =
      some ⟨some 4, some 96, 8, 8, 1, none⟩ := by
  have h := claim_C8 [⟨0, some 2, 0⟩, ⟨0, none, 0⟩, ⟨0, some 8, 0⟩] 1 ⟨0, none, 0⟩
    rfl rfl
  refine ⟨h.1, h.2.2.1, h.2.2.2.1, ?_, ?_⟩
  · have h0 := h.2.2.2.2 0 ⟨0, some 2, 0⟩ 2 rfl rfl
    rw [h0.1]
    norm_num [lollipopScale, domainFactor, d3max, jmaxCombine, max_def]
  · have h2 := h.2.2.2.2 2 ⟨0, some 8, 0⟩ 8 rfl rfl
    rw [h2.2.1]
    norm_num [lollipopScale, domainFactor, d3max, jmaxCombine, max_def]

/-- C9: when a component with itemId `frequent-words-overlay` already
exists on the panel, the operation is a no-op (the panel is returned
unchanged, no error); only when it is absent is a new overlay added —
and then nothing else on the panel changes. -/
theorem claim_C9 (panel : Panel) :
    ("frequent-words-overlay" ∈ panel.componentIds →
      showFrequentWordsOverlay panel = panel) ∧
    ("frequent-words-overlay" ∉ panel.componentIds →
      (showFrequentWordsOverlay panel).componentIds =
        panel.componentIds ++ ["frequent-words-overlay"] ∧
      (showFrequentWordsOverlay panel).formValues = panel.formValues ∧
      (showFrequentWordsOverlay panel).model = panel.model) := by
  constructor
  · intro h
    simp [showFrequentWordsOverlay, h]
  · intro h
    simp [showFrequentWordsOverlay, h]

/-- C9 witness: a panel already holding the overlay is returned
unchanged; a panel without it gains exactly the overlay component. -/
theorem claim_C9_witness :
    showFrequentWordsOverlay
        ⟨["frequent-words-overlay"], none, ⟨true, ⟨[], []⟩, ⟨[], []⟩, ⟨[], []⟩⟩⟩ =
      ⟨["frequent-words-overlay"], none, ⟨true, ⟨[], []⟩, ⟨[], []⟩, ⟨[], []⟩⟩⟩ ∧
    (showFrequentWordsOverlay
        ⟨["word-tree"], none, ⟨true, ⟨[], []⟩, ⟨[], []⟩, ⟨[], []⟩⟩⟩).componentIds =
      ["word-tree", "frequent-words-overlay"] := by
  refine ⟨(claim_C9 _).1 (by decide), ?_⟩
  have h := (claim_C9 ⟨["word-tree"], none, ⟨true, ⟨[], []⟩, ⟨[], []⟩, ⟨[], []⟩⟩⟩).2
    (by decide)
  rw [h.1]
  rfl

/-- C10: when `isSameSlice()` reports true, `getFrequentWordForSlice`
issues no `load` on `NStore`, `VStore` or `JStore` (each store, contents
and load log alike, is exactly as before); when it reports false, each of
the three stores receives exactly one new `load` call (contents are
untouched at call time — population is asynchronous). -/
theorem claim_C10 (env : Env) (panel : Panel) (fv : FormValues)
    (h : panel.model.sameSlice = true) :
    ((getFrequentWordForSlice env panel fv).model.NStore = panel.model.NStore ∧
      (getFrequentWordForSlice env panel fv).model.VStore = panel.model.VStore ∧
      (getFrequentWordForSlice env panel fv).model.JStore = panel.model.JStore) ∧
    (∀ panelB : Panel, panelB.model.sameSlice = false →
      (getFrequentWordForSlice env panelB fv).model.NStore.contents
          = panelB.model.NStore.contents ∧
      ((getFrequentWordForSlice env panelB fv).model.NStore.loads.length
          = panelB.model.NStore.loads.length + 1 ∧
        (getFrequentWordForSlice env panelB fv).model.VStore.loads.length
          = panelB.model.VStore.loads.length + 1 ∧
        (getFrequentWordForSlice env panelB fv).model.JStore.loads.length
          = panelB.model.JStore.loads.length + 1)) := by
  constructor
  · obtain ⟨cids, fvs, m⟩ := panel
    simp only [getFrequentWordForSlice] at h ⊢
    cases fvs <;> simp_all [getFrequentWordForSlice]
  · intro panelB hB
    obtain ⟨cids, fvs, m⟩ := panelB
    obtain ⟨ser, search⟩ := fv
    cases fvs <;> rcases search with _ | ⟨s0, rest⟩ <;>
      simp_all [getFrequentWordForSlice, loadStore]

/-- C10 witness: with `isSameSlice()` true the NStore is untouched; with
it false the NStore's load log grows from empty to one request. -/
theorem claim_C10_witness :
    ((getFrequentWordForSlice ⟨"wordseer", "alice"⟩
        ⟨[], none, ⟨true, ⟨[], []⟩, ⟨[], []⟩, ⟨[], []⟩⟩⟩
        ⟨[("query", "dog")], []⟩).model.NStore = ⟨[], []⟩) ∧
    ((getFrequentWordForSlice ⟨"wordseer", "alice"⟩
        ⟨[], none, ⟨false, ⟨[], []⟩, ⟨[], []⟩, ⟨[], []⟩⟩⟩
        ⟨[("query", "dog")], []⟩).model.NStore.loads.length = 1) := by
  have h := claim_C10 ⟨"wordseer", "alice"⟩
    ⟨[], none, ⟨true, ⟨[], []⟩, ⟨[], []⟩, ⟨[], []⟩⟩⟩ ⟨[("query", "dog")], []⟩ rfl
  refine ⟨h.1.1, ?_⟩
  have hB := h.2 ⟨[], none, ⟨false, ⟨[], []⟩, ⟨[], []⟩, ⟨[], []⟩⟩⟩ rfl
  simpa using hB.2.1

end WordSeer
